import Mathlib

/-!
Verification of the Synthetic Sleep-Epoch Generator
(`src/backend/data_simulator.py`, class `DataSimulator`).

The Python class is shallowly embedded as a pure state-transition system:

* the mutable object state (`self.*`) becomes the structure `Sim`, threaded
  explicitly through each operation;
* the single global NumPy random generator is modelled as explicit draw
  streams stored in the state together with cursors (`u`/`uIdx` for
  `np.random.random` and `np.random.uniform`, `z`/`zIdx` for
  `np.random.randint` and `np.random.poisson`, `g`/`gIdx` for
  `np.random.randn`).  Seeding the global generator corresponds to fixing
  the three streams; every draw site advances its cursor exactly where the
  Python code consumes a draw.  `np.random.uniform a b` is `a + (b-a)·u`
  with `u ∈ [0,1)`; `np.random.randint a b` is `a + (k % (b-a))`, which
  ranges exactly over `[a, b)`.
* transcendental and numerical-library evaluations that the arithmetic of
  the claims never depends on (`np.sin`, `np.hanning`, `np.exp`,
  `scipy` band-pass filtering, the square root inside `np.std`) are
  supplied as oracle functions bundled in `Osc`; the drawn frequencies and
  window lengths the Python code feeds into them are passed to the oracles
  so the data flow of the source is preserved.
* machine floats become exact rationals `ℚ`.

Every definition mirrors the corresponding Python method; line references
are to `src/backend/data_simulator.py`.
-/

set_option maxRecDepth 100000

namespace SleepSim

/-- Oracle bundle for transcendental / numerical-library evaluations.
`sine f i` stands for `sin(2π·f·t_i)` on the epoch time grid,
`hann n j` for `np.hanning(n)[j]`, `expc d j` for `exp(-j/d)`,
`envel n j` for the spindle envelope `sin(π·t_j/t_max)` of length `n`,
`filt` for the `filtfilt` band-pass step (`filterOk = false` models the
`except` fallback of lines 352–356), and `sqrtq` for the square root used
by `np.std`. -/
structure Osc where
  sine : ℚ → ℕ → ℚ
  hann : ℕ → ℕ → ℚ
  expc : ℕ → ℕ → ℚ
  envel : ℕ → ℕ → ℚ
  filt : List ℚ → List ℚ
  filterOk : Bool
  sqrtq : ℚ → ℚ

/-- The complete per-instance state of `DataSimulator`: configuration
(lines 11–14), per-instance traits (lines 19–28), the mutable tracking
variables set by `reset_state` (lines 32–49), and the modelled random
streams with their cursors. -/
structure Sim where
  fs : ℤ
  epoch_duration : ℤ
  n_samples : ℤ
  deep_sleep_tendency : ℚ
  rem_tendency : ℚ
  apnea_tendency : ℚ
  wake_time : ℤ
  spindle_frequency : ℚ
  delta_amplitude : ℚ
  stage_stability : ℚ
  current_epoch : ℤ
  current_stage : ℕ
  last_stage : ℕ
  stage_duration : ℕ
  sleep_onset_epoch : Option ℤ
  time_in_n1 : ℕ
  time_in_n2 : ℕ
  has_entered_n3 : Bool
  current_cycle : ℕ
  last_apnea_epoch : ℤ
  consecutive_apneas : ℕ
  total_apneas : ℕ
  u : ℕ → ℚ
  uIdx : ℕ
  z : ℕ → ℕ
  zIdx : ℕ
  g : ℕ → ℚ
  gIdx : ℕ

/-- One `np.random.random()` draw from the modelled global stream. -/
def drawU (s : Sim) : ℚ × Sim :=
  (s.u s.uIdx, { s with uIdx := s.uIdx + 1 })

/-- `np.random.uniform(a, b)`: an affine image of a unit draw. -/
def uniformD (a b : ℚ) (s : Sim) : ℚ × Sim :=
  let (r, s') := drawU s
  (a + (b - a) * r, s')

/-- `np.random.randint(a, b)`: an integer drawn from `[a, b)`. -/
def randintD (a b : ℤ) (s : Sim) : ℤ × Sim :=
  (a + ((s.z s.zIdx % (b - a).toNat : ℕ) : ℤ), { s with zIdx := s.zIdx + 1 })

/-- `np.random.poisson(2)`: an arbitrary natural drawn from the integer
stream (the Poisson distribution has support `ℕ`). -/
def poissonD (s : Sim) : ℕ × Sim :=
  (s.z s.zIdx, { s with zIdx := s.zIdx + 1 })

/-- One `np.random.randn()` (standard-normal) draw. -/
def drawG (s : Sim) : ℚ × Sim :=
  (s.g s.gIdx, { s with gIdx := s.gIdx + 1 })

/-- `DataSimulator.reset_state` (lines 32–49). -/
def resetState (s : Sim) : Sim :=
  { s with
    current_epoch := 0
    current_stage := 0
    last_stage := 0
    stage_duration := 0
    sleep_onset_epoch := none
    time_in_n1 := 0
    time_in_n2 := 0
    has_entered_n3 := false
    current_cycle := 0
    last_apnea_epoch := -20
    consecutive_apneas := 0
    total_apneas := 0 }

/-- `DataSimulator.__init__` (lines 11–30).  The Python constructor
performs no validation of `sampling_rate` and contains no failure path:
it stores the configuration, calls `reset_state`, and draws the seven
per-instance traits in source order.  It therefore embeds as a total
function. -/
def init (sampling_rate : ℤ) (u : ℕ → ℚ) (z : ℕ → ℕ) (g : ℕ → ℚ) : Sim :=
  let s : Sim :=
    { fs := sampling_rate
      epoch_duration := 30
      n_samples := sampling_rate * 30
      deep_sleep_tendency := 0
      rem_tendency := 0
      apnea_tendency := 0
      wake_time := 0
      spindle_frequency := 0
      delta_amplitude := 0
      stage_stability := 0
      current_epoch := 0
      current_stage := 0
      last_stage := 0
      stage_duration := 0
      sleep_onset_epoch := none
      time_in_n1 := 0
      time_in_n2 := 0
      has_entered_n3 := false
      current_cycle := 0
      last_apnea_epoch := -20
      consecutive_apneas := 0
      total_apneas := 0
      u := u
      uIdx := 0
      z := z
      zIdx := 0
      g := g
      gIdx := 0 }
  let s := resetState s
  let (d1, s) := uniformD (7/10) (13/10) s
  let (d2, s) := uniformD (8/10) (12/10) s
  let (d3, s) := uniformD (5/10) (15/10) s
  let (w, s) := randintD 10 25 s
  let (d4, s) := uniformD (6/10) (12/10) s
  let (d5, s) := uniformD (8/10) (12/10) s
  let (d6, s) := uniformD (8/10) (12/10) s
  { s with
    deep_sleep_tendency := d1
    rem_tendency := d2
    apnea_tendency := d3
    wake_time := w
    spindle_frequency := d4
    delta_amplitude := d5
    stage_stability := d6 }

/-- `DataSimulator.get_valid_next_stages` (lines 51–101). -/
def getValidNextStages (s : Sim) (current : ℕ) : List ℕ :=
  if current = 0 then
    [0, 1]
  else if current = 1 then
    if s.stage_duration < 2 then [1] else [0, 1, 2]
  else if current = 2 then
    if s.stage_duration < 3 then [2]
    else
      let time_asleep : ℤ :=
        match s.sleep_onset_epoch with
        | none => 0
        | some o => s.current_epoch - o
      let valid := [1, 2]
      let valid := if 10 < time_asleep then valid ++ [3] else valid
      let valid :=
        if 180 < time_asleep ∧ s.has_entered_n3 = true then valid ++ [4] else valid
      valid
  else if current = 3 then
    if s.stage_duration < 10 then [3] else [2, 3]
  else if current = 4 then
    if s.stage_duration < 5 then [4] else [2, 4]
  else [current]

/-- The `time_since_sleep` metric of lines 112 (and 72): `0` before sleep
onset, otherwise epochs since onset. -/
def timeSinceSleep (s : Sim) : ℤ :=
  match s.sleep_onset_epoch with
  | none => 0
  | some o => s.current_epoch - o

/-- The Wake branch of `get_next_stage` (lines 115–127): before onset,
fall asleep once `current_epoch ≥ wake_time` and record the onset;
after onset, return to N1 once the brief arousal lasted 2 epochs. -/
def nextStageWake (s : Sim) : ℕ × Sim :=
  match s.sleep_onset_epoch with
  | none =>
    if s.wake_time ≤ s.current_epoch then
      (1, { s with sleep_onset_epoch := some s.current_epoch })
    else (0, s)
  | some _ =>
    if 2 ≤ s.stage_duration then (1, s) else (0, s)

/-- The N1 branch of `get_next_stage` (lines 129–144).  Python
short-circuit `and` is preserved: the 70%-progress draw is consumed only
when `stage_duration ≥ 3`, and the 5%-wake draw only when the progress
checks fell through. -/
def nextStageN1 (s : Sim) : ℕ × Sim :=
  if s.stage_duration < 2 then (1, s)
  else if 3 ≤ s.stage_duration then
    let (r, s) := drawU s
    if r < 7/10 then (2, s)
    else if 6 ≤ s.stage_duration then (2, s)
    else
      let (r2, s) := drawU s
      if r2 < 1/20 then (0, s) else (1, s)
  else if 6 ≤ s.stage_duration then (2, s)
  else
    let (r2, s) := drawU s
    if r2 < 1/20 then (0, s) else (1, s)

/-- The shared fall-through of the N2 branch (lines 163–167):
occasional return to N1 after 20 epochs, else stay. -/
def nextStageN2Tail (s : Sim) : ℕ × Sim :=
  if 20 < s.stage_duration then
    let (r, s) := drawU s
    if r < 1/10 then (1, s) else (2, s)
  else (2, s)

/-- The N2 branch of `get_next_stage` (lines 146–167), taking the valid
set computed at the top of the function (line 105). -/
def nextStageN2 (s : Sim) (valid : List ℕ) : ℕ × Sim :=
  if s.stage_duration < 3 then (2, s)
  else if timeSinceSleep s < 60 ∧ s.has_entered_n3 = false then
    if 3 ∈ valid ∧ 5 < s.stage_duration then
      let (r, s) := drawU s
      if r < 6/10 * s.deep_sleep_tendency then (3, s) else nextStageN2Tail s
    else nextStageN2Tail s
  else if 200 < timeSinceSleep s ∧ s.has_entered_n3 = true then
    if 4 ∈ valid ∧ 10 < s.stage_duration then
      let (r, s) := drawU s
      if r < 4/10 * s.rem_tendency then (4, s) else nextStageN2Tail s
    else nextStageN2Tail s
  else nextStageN2Tail s

/-- The N3 branch of `get_next_stage` (lines 169–182): sets
`has_entered_n3` first (line 171), then decides. -/
def nextStageN3 (s : Sim) : ℕ × Sim :=
  let s := { s with has_entered_n3 := true }
  if s.stage_duration < 10 then (3, s)
  else if 20 < s.stage_duration then
    let (r, s) := drawU s
    if r < 2/10 then (2, s)
    else if 40 < s.stage_duration then (2, s)
    else (3, s)
  else if 40 < s.stage_duration then (2, s)
  else (3, s)

/-- The REM branch of `get_next_stage` (lines 184–197), with the
cycle-growing minimum `min_rem = 10 + (time_since_sleep // 180) * 10`. -/
def nextStageREM (s : Sim) : ℕ × Sim :=
  if s.stage_duration < 5 then (4, s)
  else
    let min_rem : ℤ := 10 + Int.ediv (timeSinceSleep s) 180 * 10
    if min_rem < (s.stage_duration : ℤ) then
      let (r, s) := drawU s
      if r < 15/100 then (2, s)
      else if min_rem + 20 < (s.stage_duration : ℤ) then (2, s)
      else (4, s)
    else if min_rem + 20 < (s.stage_duration : ℤ) then (2, s)
    else (4, s)

/-- `DataSimulator.get_next_stage` (lines 103–199).  Returns the chosen
stage together with the state, which may have `sleep_onset_epoch` set
(Wake branch, line 120), `has_entered_n3` set (N3 branch, line 171) and
the draw cursor advanced.  The per-stage branches of the source's
`if`/`elif` chain are the `nextStage*` functions above; `timeSinceSleep`
is recomputed inside the branches that read it, which is equivalent to
the single computation at line 112 because nothing mutates the state in
between. -/
def getNextStage (s : Sim) : ℕ × Sim :=
  let valid := getValidNextStages s s.current_stage
  if valid.length = 1 then (valid.headD s.current_stage, s)
  else if s.current_stage = 0 then nextStageWake s
  else if s.current_stage = 1 then nextStageN1 s
  else if s.current_stage = 2 then nextStageN2 s valid
  else if s.current_stage = 3 then nextStageN3 s
  else if s.current_stage = 4 then nextStageREM s
  else (s.current_stage, s)

/-- `DataSimulator.simulate_sleep_stage` (lines 201–233): choose a next
stage, defensively clamp it to the valid set, and update
`current_stage` / `stage_duration` / `time_in_n1` / `time_in_n2`. -/
def simulateSleepStage (s : Sim) : ℕ × Sim :=
  let s := { s with last_stage := s.current_stage }
  let (next0, s) := getNextStage s
  let valid := getValidNextStages s s.current_stage
  let next := if next0 ∈ valid then next0 else valid.headD s.current_stage
  if next ≠ s.current_stage then
    let s :=
      { s with
        current_stage := next
        stage_duration := 0
        time_in_n1 := if next ≠ 1 then 0 else s.time_in_n1
        time_in_n2 := if next ≠ 2 then 0 else s.time_in_n2 }
    (s.current_stage, s)
  else
    let s :=
      { s with
        stage_duration := s.stage_duration + 1
        time_in_n1 := if s.current_stage = 1 then s.time_in_n1 + 1 else s.time_in_n1
        time_in_n2 := if s.current_stage = 2 then s.time_in_n2 + 1 else s.time_in_n2 }
    (s.current_stage, s)

/-- Base apnea probabilities by stage (lines 269–276). -/
def baseProbs (stage : ℕ) : ℚ :=
  if stage = 1 then 1/100
  else if stage = 2 then 15/1000
  else if stage = 3 then 5/1000
  else if stage = 4 then 25/1000
  else 1/100

/-- The stage-probability draw of `simulate_apnea` (lines 268–289): the
base probability scaled by the apnea-tendency trait and the
gap-dependent boost, compared against a fresh uniform draw. -/
def apneaBase (s : Sim) (sleep_stage : ℕ) : Bool × Sim :=
  let prob := baseProbs sleep_stage * s.apnea_tendency
  let time_since_last := s.current_epoch - s.last_apnea_epoch
  let prob :=
    if 20 < time_since_last then prob * 2
    else if 10 < time_since_last then prob * (3/2)
    else prob
  let (r, s) := drawU s
  if r < prob then (true, s) else (false, s)

/-- The demo-visibility block of `simulate_apnea` (lines 253–266): within
the first 50 epochs, force the first apnea after epoch 25 (gap ≥ 6), and
attempt a second after epoch 35 with probability 0.3; every fall-through
continues with the stage-probability draw. -/
def apneaDemo (s : Sim) (sleep_stage : ℕ) : Bool × Sim :=
  if s.current_epoch < 50 ∧ s.total_apneas < 2 then
    if 25 < s.current_epoch ∧ s.total_apneas = 0 then
      if 6 ≤ s.current_epoch - s.last_apnea_epoch then (true, s)
      else apneaBase s sleep_stage
    else if 35 < s.current_epoch ∧ s.total_apneas = 1 then
      if 6 ≤ s.current_epoch - s.last_apnea_epoch then
        let (r, s) := drawU s
        if r < 3/10 then (true, s) else apneaBase s sleep_stage
      else apneaBase s sleep_stage
    else apneaBase s sleep_stage
  else apneaBase s sleep_stage

/-- `DataSimulator.simulate_apnea` (lines 235–289): never during Wake,
never with two consecutive apneas already, and outside a cluster only
after a freshly randomized minimum gap of 4–7 epochs.  The decision only
reads the state and consumes draws; the post-decision bookkeeping lives
in `generateEpochData` as in the source. -/
def simulateApnea (s : Sim) (sleep_stage : ℕ) : Bool × Sim :=
  if sleep_stage = 0 then (false, s)
  else if 2 ≤ s.consecutive_apneas then (false, s)
  else if s.consecutive_apneas = 0 then
    let (min_gap, s) := randintD 4 8 s
    if s.current_epoch - s.last_apnea_epoch < min_gap then (false, s)
    else apneaDemo s sleep_stage
  else apneaDemo s sleep_stage

/-- `np.clip(x, lo, hi)` for one sample. -/
def npClip (lo hi x : ℚ) : ℚ := max lo (min hi x)

/-- The per-stage HR baselines of lines 370–377 (`stage_hr` dict); the
dict default `62` carries no base adjustment, exactly as in the source. -/
def stageHr (base_adjustment : ℚ) (stage : ℕ) : ℚ :=
  if stage = 0 then 70 + base_adjustment
  else if stage = 1 then 65 + base_adjustment
  else if stage = 2 then 60 + base_adjustment
  else if stage = 3 then 58 + base_adjustment
  else if stage = 4 then 66 + base_adjustment
  else 62

/-- The per-stage breathing rates of line 380 (`breathing_rates` dict). -/
def breathingRates (stage : ℕ) : ℚ :=
  if stage = 0 then 16
  else if stage = 1 then 14
  else if stage = 2 then 12
  else if stage = 3 then 10
  else if stage = 4 then 18
  else 12

/-- The HR waveform of `DataSimulator.generate_hr_signal`
(lines 364–411) at sample index `i`, before the final `np.clip`
(line 413).  The draw cursor walks exactly as in the source: base
adjustment, breathing-rate jitter, the REM oscillation frequency only in
stage 4, and (when `is_apnea` and the stage is not Wake) the bradycardia
depth, then the tachycardia height only when the rebound fits inside the
epoch (line 403). -/
def hrPreClip (fs n_samples : ℤ) (u : ℕ → ℚ) (g : ℕ → ℚ)
    (uIdx gIdx : ℕ) (stage : ℕ) (is_apnea : Bool) (osc : Osc) (i : ℕ) : ℚ :=
  let base_adjustment := -3 + (3 - (-3 : ℚ)) * u uIdx
  let base_hr := stageHr base_adjustment stage
  let breathing_rate := (breathingRates stage + (-1 + 2 * u (uIdx + 1))) / 60
  let i0 := uIdx + 2
  let remFreq : ℚ := 2/10 + (3/10 - 2/10) * u i0
  let i1 := if stage = 4 then i0 + 1 else i0
  let N := n_samples.toNat
  let apnea_start := N / 3
  let apnea_dur := N / 3
  let tachy_dur := (Int.ediv fs 3).toNat
  let fits := (apnea_start : ℤ) + (apnea_dur : ℤ) + Int.ediv fs 3 < n_samples
  let brady_depth := 4 + (6 - 4 : ℚ) * u i1
  let tachy_height := 6 + (10 - 6 : ℚ) * u (i1 + 1)
  let v := base_hr + 3 * osc.sine breathing_rate i + 3/2 * osc.sine (1/10) i
  let v := if stage = 4 then v + 3 * osc.sine remFreq i else v
  let v :=
    if is_apnea = true ∧ stage ≠ 0 ∧ apnea_start ≤ i ∧ i < apnea_start + apnea_dur then
      v + -brady_depth * osc.hann apnea_dur (i - apnea_start)
    else v
  let v :=
    if is_apnea = true ∧ stage ≠ 0 ∧ fits ∧ apnea_start + apnea_dur ≤ i ∧
        i < apnea_start + apnea_dur + tachy_dur then
      v + tachy_height * osc.expc (Int.ediv fs 4).toNat (i - (apnea_start + apnea_dur))
    else v
  v + g (gIdx + i) * (1/2)

/-- The number of `uniform` draws `generate_hr_signal` consumes, and the
`randn` draws for the noise of line 410: new cursor positions for the
modelled streams. -/
def hrNewCursors (fs n_samples : ℤ) (uIdx gIdx : ℕ) (stage : ℕ)
    (is_apnea : Bool) : ℕ × ℕ :=
  let i0 := uIdx + 2
  let i1 := if stage = 4 then i0 + 1 else i0
  let N := n_samples.toNat
  let fits := ((N / 3 : ℕ) : ℤ) + ((N / 3 : ℕ) : ℤ) + Int.ediv fs 3 < n_samples
  let i2 :=
    if is_apnea = true ∧ stage ≠ 0 then (if fits then i1 + 2 else i1 + 1) else i1
  (i2, gIdx + N)

/-- `DataSimulator.generate_hr_signal` (lines 364–415): the pre-clip
waveform clipped to `[45, 110]` (line 413), plus the advanced stream
cursors. -/
def generateHrSignal (fs n_samples : ℤ) (u : ℕ → ℚ) (g : ℕ → ℚ)
    (uIdx gIdx : ℕ) (stage : ℕ) (is_apnea : Bool) (osc : Osc) :
    List ℚ × ℕ × ℕ :=
  (((List.range n_samples.toNat).map fun i =>
      npClip 45 110 (hrPreClip fs n_samples u g uIdx gIdx stage is_apnea osc i)),
   hrNewCursors fs n_samples uIdx gIdx stage is_apnea)

/-- The per-stage EEG noise amplitudes of line 296 (`noise_amplitudes`). -/
def eegNoiseAmp (stage : ℕ) : ℚ :=
  if stage = 0 then 15/100
  else if stage = 1 then 12/100
  else if stage = 2 then 10/100
  else if stage = 3 then 8/100
  else if stage = 4 then 13/100
  else 1/10

/-- Add a segment `f` of length `len` into a signal at offset `start`
(the NumPy slice additions of lines 329 and 349). -/
def addSeg (sig : ℕ → ℚ) (start len : ℕ) (f : ℕ → ℚ) : ℕ → ℚ :=
  fun i => if start ≤ i ∧ i < start + len then sig i + f (i - start) else sig i

/-- The sleep-spindle loop of lines 320–329: each iteration draws a start
(`randint(0, max(1, n_samples - fs))`), a duration
(`randint(int(fs*0.5), int(fs*1.5))`, integer truncation as in Python)
and a frequency (`uniform(12, 14)`), and adds a windowed sinusoid,
truncated at the buffer end. -/
def spindleLoop (u : ℕ → ℚ) (z : ℕ → ℕ) (fs n_samples : ℤ) (osc : Osc) :
    ℕ → ((ℕ → ℚ) × ℕ × ℕ) → ((ℕ → ℚ) × ℕ × ℕ)
  | 0, st => st
  | Nat.succ k, st =>
    let sig := st.1
    let ui := st.2.1
    let zi := st.2.2
    let N := n_samples.toNat
    let start : ℕ := z zi % (max 1 (n_samples - fs)).toNat
    let durLo : ℤ := Int.tdiv fs 2
    let durHi : ℤ := Int.tdiv (3 * fs) 2
    let dur : ℕ := (durLo + ((z (zi + 1) % (durHi - durLo).toNat : ℕ) : ℤ)).toNat
    let freq : ℚ := 12 + (14 - 12 : ℚ) * u ui
    let len := min (start + dur) N - start
    let sig := addSeg sig start len fun j => 7/10 * osc.envel dur j * osc.sine freq j
    spindleLoop u z fs n_samples osc k (sig, ui + 1, zi + 2)

/-- The REM sawtooth-burst loop of lines 345–349: each iteration draws a
start (`randint(0, max(1, n_samples - fs//2))`) and adds
`0.4 · randn` noise over `min(fs//2, n_samples - start)` samples. -/
def sawtoothLoop (z : ℕ → ℕ) (g : ℕ → ℚ) (fs n_samples : ℤ) :
    ℕ → ((ℕ → ℚ) × ℕ × ℕ) → ((ℕ → ℚ) × ℕ × ℕ)
  | 0, st => st
  | Nat.succ k, st =>
    let sig := st.1
    let zi := st.2.1
    let gi := st.2.2
    let N := n_samples.toNat
    let start : ℕ := z zi % (max 1 (n_samples - Int.tdiv fs 2)).toNat
    let dur : ℕ := min (Int.tdiv fs 2).toNat (N - start)
    let sig := addSeg sig start dur fun j => 4/10 * g (gi + j)
    sawtoothLoop z g fs n_samples k (sig, zi + 1, gi + dur)

/-- `DataSimulator.generate_eeg_signal` up to and including the band-pass
step (lines 291–356): stage-dependent Gaussian noise, stage-characteristic
sinusoidal components, N2 spindles / REM sawtooth bursts, then the
`filtfilt` band-pass inside `try`; on failure (`filterOk = false`) the
unfiltered signal is kept (lines 352–356).  Returns the pre-normalization
signal and the advanced cursors.  Note line 337: the final `else` of the
source covers stage 4 and every stage outside `{0,1,2,3}`. -/
def eegPreNormalize (fs n_samples : ℤ) (delta_amplitude : ℚ)
    (u : ℕ → ℚ) (z : ℕ → ℕ) (g : ℕ → ℚ) (uIdx zIdx gIdx : ℕ)
    (stage : ℕ) (osc : Osc) : List ℚ × ℕ × ℕ × ℕ :=
  let N := n_samples.toNat
  let noise_level := eegNoiseAmp stage * (9/10 + (11/10 - 9/10) * u uIdx)
  let ui := uIdx + 1
  let base : ℕ → ℚ := fun i => g (gIdx + i) * noise_level
  let gi := gIdx + N
  let (sig, ui2, zi2, gi2) : (ℕ → ℚ) × ℕ × ℕ × ℕ :=
    if stage = 0 then
      (fun i => base i + 6/10 * osc.sine (9 + 2 * u ui) i
          + 3/10 * osc.sine (18 + 4 * u (ui + 1)) i
          + 2/10 * osc.sine (24 + 4 * u (ui + 2)) i,
       ui + 3, zIdx, gi)
    else if stage = 1 then
      (fun i => base i + 5/10 * osc.sine (5 + 2 * u ui) i
          + 3/10 * osc.sine (4 + 2 * u (ui + 1)) i
          + 2/10 * osc.sine (8 + 2 * u (ui + 2)) i,
       ui + 3, zIdx, gi)
    else if stage = 2 then
      let sig0 : ℕ → ℚ := fun i => base i + 4/10 * osc.sine (4 + 2 * u ui) i
          + 3/10 * osc.sine (1 + 2 * u (ui + 1)) i
      let n_spindles := z zIdx
      let (sig1, ui3, zi3) :=
        spindleLoop u z fs n_samples osc (min n_spindles 4) (sig0, ui + 2, zIdx + 1)
      (sig1, ui3, zi3, gi)
    else if stage = 3 then
      (fun i => base i + 8/10 * delta_amplitude * osc.sine (1/2 + u ui) i
          + 7/10 * delta_amplitude * osc.sine (1 + u (ui + 1)) i
          + 5/10 * delta_amplitude * osc.sine (3/2 + u (ui + 2)) i,
       ui + 3, zIdx, gi)
    else
      let sig0 : ℕ → ℚ := fun i => base i + 4/10 * osc.sine (6 + 2 * u ui) i
          + 3/10 * osc.sine (9 + 2 * u (ui + 1)) i
          + 2/10 * osc.sine (15 + 5 * u (ui + 2)) i
      let r := u (ui + 3)
      if r < 3/10 then
        let n_sawtooth := 1 + z zIdx % 2
        let (sig1, zi3, gi3) :=
          sawtoothLoop z g fs n_samples n_sawtooth (sig0, zIdx + 1, gi)
        (sig1, ui + 4, zi3, gi3)
      else (sig0, ui + 4, zIdx, gi)
  let lst := (List.range N).map sig
  let lst := if osc.filterOk = true then osc.filt lst else lst
  (lst, ui2, zi2, gi2)

/-- The arithmetic mean used by `np.mean` (0 on an empty buffer). -/
def meanQ (l : List ℚ) : ℚ := if l.length = 0 then 0 else l.sum / l.length

/-- The population variance underlying `np.std` (`np.std l = sqrt (varQ l)`,
so the guard `np.std(signal) > 0` of line 359 is exactly `0 < varQ l`). -/
def varQ (l : List ℚ) : ℚ := meanQ (l.map fun x => (x - meanQ l) ^ 2)

/-- The zero-mean/unit-variance normalization of lines 358–361, guarded by
`np.std(signal) > 0`; when the variance is zero the signal is returned
unchanged. -/
def normalizeSignal (sqrtq : ℚ → ℚ) (l : List ℚ) : List ℚ :=
  if 0 < varQ l then l.map fun x => (x - meanQ l) / sqrtq (varQ l) else l

/-- `DataSimulator.generate_eeg_signal` (lines 291–362): the
pre-normalization signal followed by the guarded normalization.  The
final `astype(np.float32)` is modelled as the identity on exact
rationals. -/
def generateEegSignal (fs n_samples : ℤ) (delta_amplitude : ℚ)
    (u : ℕ → ℚ) (z : ℕ → ℕ) (g : ℕ → ℚ) (uIdx zIdx gIdx : ℕ)
    (stage : ℕ) (osc : Osc) : List ℚ × ℕ × ℕ × ℕ :=
  let r := eegPreNormalize fs n_samples delta_amplitude u z g uIdx zIdx gIdx stage osc
  (normalizeSignal osc.sqrtq r.1, r.2)

/-- The output record of one tick (§3 of the data model): EEG and HR
waveforms, the stage and the apnea flag returned by
`generate_epoch_data` (line 479). -/
structure EpochRecord where
  eeg : List ℚ
  hr : List ℚ
  stage : ℕ
  isApnea : Bool
deriving DecidableEq

/-- The apnea bookkeeping of `generate_epoch_data` (lines 457–463): on a
positive decision increment `consecutive_apneas` and `total_apneas` and
stamp `last_apnea_epoch`; otherwise reset `consecutive_apneas`. -/
def apneaBookkeeping (s : Sim) (is_apnea : Bool) : Sim :=
  if is_apnea = true then
    { s with
      consecutive_apneas := s.consecutive_apneas + 1
      last_apnea_epoch := s.current_epoch
      total_apneas := s.total_apneas + 1 }
  else { s with consecutive_apneas := 0 }

/-- `DataSimulator.generate_epoch_data` (lines 449–479): stage, then the
apnea decision on the *new* stage, then the apnea bookkeeping of lines
457–463, then the two waveforms, then the epoch-counter increment. -/
def generateEpochData (s : Sim) (osc : Osc) : EpochRecord × Sim :=
  let p := simulateSleepStage s
  let stage := p.1
  let q := simulateApnea p.2 stage
  let is_apnea := q.1
  let s2 := apneaBookkeeping q.2 is_apnea
  let e := generateEegSignal s2.fs s2.n_samples s2.delta_amplitude s2.u s2.z s2.g
      s2.uIdx s2.zIdx s2.gIdx stage osc
  let h := generateHrSignal s2.fs s2.n_samples s2.u s2.g e.2.1 e.2.2.2 stage is_apnea osc
  let s3 :=
    { s2 with
      uIdx := h.2.1
      zIdx := e.2.2.1
      gIdx := h.2.2
      current_epoch := s2.current_epoch + 1 }
  (⟨e.1, h.1, stage, is_apnea⟩, s3)

/-- The state after `n` ticks of one session. -/
def run (s : Sim) (osc : Osc) : ℕ → Sim
  | 0 => s
  | n + 1 => (generateEpochData (run s osc n) osc).2

/-- The record emitted by the tick with index `n` (the tick whose
`current_epoch` is `n` when ticks start from a fresh session). -/
def nthRecord (s : Sim) (osc : Osc) (n : ℕ) : EpochRecord :=
  (generateEpochData (run s osc n) osc).1

/-- The full sequence of records over the first `n` ticks. -/
def recordSeq (s : Sim) (osc : Osc) : ℕ → List EpochRecord
  | 0 => []
  | n + 1 => recordSeq s osc n ++ [nthRecord s osc n]

/-- The minimum-duration floors of the spec's §4.1 table
(Wake 0, N1 2, N2 3, N3 10, REM 5), stated from the spec for comparison
with the inline floors of `get_valid_next_stages`. -/
def specMinDuration : ℕ → ℕ
  | 1 => 2
  | 2 => 3
  | 3 => 10
  | 4 => 5
  | _ => 0

/-! ### Structural lemmas about the stage engine -/

/-- The state returned by each per-stage decision function differs from
the input only in `sleep_onset_epoch`, `has_entered_n3` and the draw
cursor; all other fields are preserved, and `has_entered_n3` is never
cleared.  Stated as a reusable record predicate. -/
def OnlyDecisionFields (s t : Sim) : Prop :=
  t.fs = s.fs ∧ t.n_samples = s.n_samples ∧
  t.current_epoch = s.current_epoch ∧ t.current_stage = s.current_stage ∧
  t.stage_duration = s.stage_duration ∧
  t.time_in_n1 = s.time_in_n1 ∧ t.time_in_n2 = s.time_in_n2 ∧
  t.last_apnea_epoch = s.last_apnea_epoch ∧
  t.consecutive_apneas = s.consecutive_apneas ∧
  t.total_apneas = s.total_apneas ∧
  (s.has_entered_n3 = true → t.has_entered_n3 = true)

theorem onlyDecisionFields_trans {s t r : Sim}
    (h1 : OnlyDecisionFields s t) (h2 : OnlyDecisionFields t r) :
    OnlyDecisionFields s r := by
  obtain ⟨a1, b1, c1, d1, e1, f1, g1, i1, j1, k1, m1⟩ := h1
  obtain ⟨a2, b2, c2, d2, e2, f2, g2, i2, j2, k2, m2⟩ := h2
  exact ⟨a2.trans a1, b2.trans b1, c2.trans c1, d2.trans d1, e2.trans e1,
    f2.trans f1, g2.trans g1, i2.trans i1, j2.trans j1, k2.trans k1,
    fun h => m2 (m1 h)⟩

theorem nextStageWake_only (s : Sim) : OnlyDecisionFields s (nextStageWake s).2 := by
  simp only [nextStageWake]
  repeat' split
  all_goals exact ⟨rfl, rfl, rfl, rfl, rfl, rfl, rfl, rfl, rfl, rfl, fun h => h⟩

theorem nextStageN1_only (s : Sim) : OnlyDecisionFields s (nextStageN1 s).2 := by
  simp only [nextStageN1, drawU]
  repeat' split
  all_goals exact ⟨rfl, rfl, rfl, rfl, rfl, rfl, rfl, rfl, rfl, rfl, fun h => h⟩

theorem nextStageN2Tail_only (s : Sim) : OnlyDecisionFields s (nextStageN2Tail s).2 := by
  simp only [nextStageN2Tail, drawU]
  repeat' split
  all_goals exact ⟨rfl, rfl, rfl, rfl, rfl, rfl, rfl, rfl, rfl, rfl, fun h => h⟩

theorem nextStageN2_only (s : Sim) (valid : List ℕ) :
    OnlyDecisionFields s (nextStageN2 s valid).2 := by
  simp only [nextStageN2, drawU]
  repeat' split
  all_goals
    first
      | exact ⟨rfl, rfl, rfl, rfl, rfl, rfl, rfl, rfl, rfl, rfl, fun h => h⟩
      | exact nextStageN2Tail_only s
      | exact onlyDecisionFields_trans
          ⟨rfl, rfl, rfl, rfl, rfl, rfl, rfl, rfl, rfl, rfl, fun h => h⟩
          (nextStageN2Tail_only _)

theorem nextStageN3_only (s : Sim) : OnlyDecisionFields s (nextStageN3 s).2 := by
  simp only [nextStageN3, drawU]
  repeat' split
  all_goals exact ⟨rfl, rfl, rfl, rfl, rfl, rfl, rfl, rfl, rfl, rfl, fun _ => rfl⟩

theorem nextStageREM_only (s : Sim) : OnlyDecisionFields s (nextStageREM s).2 := by
  simp only [nextStageREM, drawU]
  repeat' split
  all_goals exact ⟨rfl, rfl, rfl, rfl, rfl, rfl, rfl, rfl, rfl, rfl, fun h => h⟩

theorem getNextStage_only (s : Sim) : OnlyDecisionFields s (getNextStage s).2 := by
  simp only [getNextStage]
  repeat' split
  all_goals
    first
      | exact ⟨rfl, rfl, rfl, rfl, rfl, rfl, rfl, rfl, rfl, rfl, fun h => h⟩
      | exact nextStageWake_only s
      | exact nextStageN1_only s
      | exact nextStageN2_only s _
      | exact nextStageN3_only s
      | exact nextStageREM_only s

/-- `simulate_apnea` and its helpers change nothing but the draw
cursors. -/
def OnlyCursors (s t : Sim) : Prop :=
  t.fs = s.fs ∧ t.n_samples = s.n_samples ∧
  t.current_epoch = s.current_epoch ∧ t.current_stage = s.current_stage ∧
  t.stage_duration = s.stage_duration ∧
  t.sleep_onset_epoch = s.sleep_onset_epoch ∧
  t.has_entered_n3 = s.has_entered_n3 ∧
  t.time_in_n1 = s.time_in_n1 ∧ t.time_in_n2 = s.time_in_n2 ∧
  t.last_apnea_epoch = s.last_apnea_epoch ∧
  t.consecutive_apneas = s.consecutive_apneas ∧
  t.total_apneas = s.total_apneas

theorem onlyCursors_trans {s t r : Sim}
    (h1 : OnlyCursors s t) (h2 : OnlyCursors t r) : OnlyCursors s r := by
  obtain ⟨a1, b1, c1, d1, e1, f1, g1, i1, j1, k1, m1, n1⟩ := h1
  obtain ⟨a2, b2, c2, d2, e2, f2, g2, i2, j2, k2, m2, n2⟩ := h2
  exact ⟨a2.trans a1, b2.trans b1, c2.trans c1, d2.trans d1, e2.trans e1,
    f2.trans f1, g2.trans g1, i2.trans i1, j2.trans j1, k2.trans k1,
    m2.trans m1, n2.trans n1⟩

theorem apneaBase_only (s : Sim) (st : ℕ) : OnlyCursors s (apneaBase s st).2 := by
  simp only [apneaBase, drawU]
  repeat' split
  all_goals exact ⟨rfl, rfl, rfl, rfl, rfl, rfl, rfl, rfl, rfl, rfl, rfl, rfl⟩

theorem apneaDemo_only (s : Sim) (st : ℕ) : OnlyCursors s (apneaDemo s st).2 := by
  simp only [apneaDemo, drawU]
  repeat' split
  all_goals
    first
      | exact ⟨rfl, rfl, rfl, rfl, rfl, rfl, rfl, rfl, rfl, rfl, rfl, rfl⟩
      | exact apneaBase_only s st
      | exact onlyCursors_trans
          ⟨rfl, rfl, rfl, rfl, rfl, rfl, rfl, rfl, rfl, rfl, rfl, rfl⟩
          (apneaBase_only _ st)

theorem simulateApnea_only (s : Sim) (st : ℕ) :
    OnlyCursors s (simulateApnea s st).2 := by
  simp only [simulateApnea, randintD]
  repeat' split
  all_goals
    first
      | exact ⟨rfl, rfl, rfl, rfl, rfl, rfl, rfl, rfl, rfl, rfl, rfl, rfl⟩
      | exact apneaDemo_only s st
      | exact onlyCursors_trans
          ⟨rfl, rfl, rfl, rfl, rfl, rfl, rfl, rfl, rfl, rfl, rfl, rfl⟩
          (apneaDemo_only _ st)


/-! ### Behavioural lemmas -/

theorem nextStageN3_sets (s : Sim) : (nextStageN3 s).2.has_entered_n3 = true := by
  simp only [nextStageN3, drawU]
  repeat' split
  all_goals rfl

theorem getValidNextStages_floor (s : Sim)
    (h : s.stage_duration < specMinDuration s.current_stage) :
    getValidNextStages s s.current_stage = [s.current_stage] := by
  rcases hc : s.current_stage with _ | _ | _ | _ | _ | n <;>
    rw [hc] at h <;>
    simp [specMinDuration] at h <;>
    simp [getValidNextStages, h]

theorem simulateSleepStage_shape (s : Sim) :
    ∃ t a b c d, OnlyDecisionFields s t ∧
      (simulateSleepStage s).2 =
        { t with current_stage := a, stage_duration := b, time_in_n1 := c,
                 time_in_n2 := d } ∧
      ((a ≠ s.current_stage ∧ b = 0) ∨
        (a = s.current_stage ∧ b = s.stage_duration + 1)) ∧
      (simulateSleepStage s).1 = a ∧
      t = (getNextStage { s with last_stage := s.current_stage }).2 := by
  unfold simulateSleepStage
  dsimp only
  have hgo := getNextStage_only { s with last_stage := s.current_stage }
  generalize hp : getNextStage { s with last_stage := s.current_stage } = p at hgo ⊢
  obtain ⟨n0, t⟩ := p
  have hs : OnlyDecisionFields s t := hgo
  obtain ⟨-, -, -, hstage, hdur, -, -, -, -, -, -⟩ := hs
  have hs2 : OnlyDecisionFields s t := hgo
  dsimp only
  repeat' split
  all_goals
    first
      | exact ⟨t, _, _, _, _, hs2, rfl,
          Or.inl ⟨by rw [← hstage]; assumption, rfl⟩, rfl, rfl⟩
      | exact ⟨t, _, _, _, _, hs2, rfl, Or.inr ⟨hstage, by rw [hdur]⟩, rfl, rfl⟩


theorem simulateSleepStage_pres (s : Sim) :
    (simulateSleepStage s).2.current_epoch = s.current_epoch ∧
    (simulateSleepStage s).2.consecutive_apneas = s.consecutive_apneas ∧
    (simulateSleepStage s).2.total_apneas = s.total_apneas ∧
    (simulateSleepStage s).2.last_apnea_epoch = s.last_apnea_epoch ∧
    (s.has_entered_n3 = true → (simulateSleepStage s).2.has_entered_n3 = true) := by
  obtain ⟨t, a, b, c, d, hod, heq, -, -, -⟩ := simulateSleepStage_shape s
  obtain ⟨-, -, hep, -, -, -, -, hlast, hcons, htot, hn3⟩ := hod
  rw [heq]
  exact ⟨hep, hcons, htot, hlast, fun h => hn3 h⟩

/-- Under the minimum-duration floor the valid set is the singleton
`[current]`, so `get_next_stage` returns the current stage unchanged via
its single-option early return (line 108–109). -/
theorem getNextStage_floor (s : Sim)
    (h : s.stage_duration < specMinDuration s.current_stage) :
    getNextStage s = (s.current_stage, s) := by
  have hv := getValidNextStages_floor s h
  unfold getNextStage
  rw [hv]
  simp

/-- Whenever the minimum-duration floor of the current stage is not yet
met, the tick keeps the stage and just extends its duration. -/
theorem simulateSleepStage_floor (s : Sim)
    (h : s.stage_duration < specMinDuration s.current_stage) :
    (simulateSleepStage s).2.current_stage = s.current_stage ∧
    (simulateSleepStage s).1 = s.current_stage ∧
    (simulateSleepStage s).2.stage_duration = s.stage_duration + 1 := by
  unfold simulateSleepStage
  dsimp only
  rw [getNextStage_floor { s with last_stage := s.current_stage } h]
  dsimp only
  rw [getValidNextStages_floor { s with last_stage := s.current_stage } h]
  simp


/-- Rule 2 of the scheduler: with two consecutive apneas the decision is
always `false` (lines 242–244). -/
theorem simulateApnea_cap (s : Sim) (st : ℕ) (h : 2 ≤ s.consecutive_apneas) :
    (simulateApnea s st).1 = false := by
  simp only [simulateApnea, randintD]
  repeat' split
  all_goals first | rfl | (exfalso; omega)

/-- Contrapositive of the cap: a positive decision implies the cluster
was shorter than 2. -/
theorem simulateApnea_true_lt (s : Sim) (st : ℕ)
    (h : (simulateApnea s st).1 = true) : s.consecutive_apneas < 2 := by
  by_contra hc
  rw [simulateApnea_cap s st (Nat.le_of_not_lt hc)] at h
  exact Bool.false_ne_true h

/-- Rule 3 of the scheduler: outside a cluster, a gap below 4 epochs is
below every drawable minimum gap (the draw ranges over `[4, 8)`), so the
decision is `false` whatever the stream holds (lines 247–251). -/
theorem simulateApnea_gap (s : Sim) (st : ℕ)
    (h0 : s.consecutive_apneas = 0)
    (hgap : s.current_epoch - s.last_apnea_epoch < 4) :
    (simulateApnea s st).1 = false := by
  simp only [simulateApnea, randintD]
  repeat' split
  all_goals first | rfl | (exfalso; omega)

/-- The N3 branch of the decision runs only once the N3 floor is met; it
then sets `has_entered_n3` (line 171) whatever else it decides. -/
theorem getValidNextStages_n3 (s : Sim) (hd : 10 ≤ s.stage_duration) :
    getValidNextStages s 3 = [2, 3] := by
  simp [getValidNextStages, Nat.not_lt.mpr hd]

theorem getNextStage_n3set (s : Sim) (h3 : s.current_stage = 3)
    (hd : 10 ≤ s.stage_duration) :
    (getNextStage s).2.has_entered_n3 = true := by
  unfold getNextStage
  rw [h3, getValidNextStages_n3 s hd]
  simp [nextStageN3_sets]

theorem simulateSleepStage_n3set (s : Sim) (h3 : s.current_stage = 3)
    (hd : 10 ≤ s.stage_duration) :
    (simulateSleepStage s).2.has_entered_n3 = true := by
  obtain ⟨t, a, b, c, d, -, heq, -, -, ht⟩ := simulateSleepStage_shape s
  rw [heq]
  show t.has_entered_n3 = true
  rw [ht]
  exact getNextStage_n3set { s with last_stage := s.current_stage } h3 hd

theorem apneaBookkeeping_fields (s : Sim) (b : Bool) :
    (apneaBookkeeping s b).current_epoch = s.current_epoch ∧
    (apneaBookkeeping s b).has_entered_n3 = s.has_entered_n3 ∧
    (apneaBookkeeping s b).current_stage = s.current_stage ∧
    (apneaBookkeeping s b).consecutive_apneas =
      (if b = true then s.consecutive_apneas + 1 else 0) ∧
    (apneaBookkeeping s b).total_apneas =
      (if b = true then s.total_apneas + 1 else s.total_apneas) ∧
    (apneaBookkeeping s b).last_apnea_epoch =
      (if b = true then s.current_epoch else s.last_apnea_epoch) := by
  unfold apneaBookkeeping
  split <;> rename_i hb <;> simp [hb]

/-- The state component of one tick is the post-bookkeeping state with
only the draw cursors replaced and the epoch counter incremented; the
record's stage and apnea flag are the engine's and the scheduler's
outputs.  Definitional characterization of `generateEpochData`. -/
theorem generateEpochData_spec (s : Sim) (osc : Osc) :
    ∃ i j k,
      (generateEpochData s osc).2 =
        { apneaBookkeeping
            (simulateApnea (simulateSleepStage s).2 (simulateSleepStage s).1).2
            (simulateApnea (simulateSleepStage s).2 (simulateSleepStage s).1).1 with
          uIdx := i, zIdx := j, gIdx := k,
          current_epoch :=
            (apneaBookkeeping
              (simulateApnea (simulateSleepStage s).2 (simulateSleepStage s).1).2
              (simulateApnea (simulateSleepStage s).2 (simulateSleepStage s).1).1).current_epoch
              + 1 } ∧
      (generateEpochData s osc).1.stage = (simulateSleepStage s).1 ∧
      (generateEpochData s osc).1.isApnea =
        (simulateApnea (simulateSleepStage s).2 (simulateSleepStage s).1).1 :=
  ⟨_, _, _, rfl, rfl, rfl⟩


theorem tick_epoch (s : Sim) (osc : Osc) :
    (generateEpochData s osc).2.current_epoch = s.current_epoch + 1 := by
  obtain ⟨i, j, k, heq, -, -⟩ := generateEpochData_spec s osc
  rw [heq]
  show (apneaBookkeeping _ _).current_epoch + 1 = s.current_epoch + 1
  rw [(apneaBookkeeping_fields _ _).1]
  obtain ⟨-, -, hep, -⟩ := simulateApnea_only (simulateSleepStage s).2 (simulateSleepStage s).1
  rw [hep, (simulateSleepStage_pres s).1]

theorem tick_consec_le (s : Sim) (osc : Osc) :
    (generateEpochData s osc).2.consecutive_apneas ≤ 2 := by
  obtain ⟨i, j, k, heq, -, -⟩ := generateEpochData_spec s osc
  rw [heq]
  show (apneaBookkeeping _ _).consecutive_apneas ≤ 2
  rw [(apneaBookkeeping_fields _ _).2.2.2.1]
  split
  · rename_i hb
    have hlt := simulateApnea_true_lt _ _ hb
    obtain ⟨-, -, -, -, -, -, -, -, -, -, hcons, -⟩ :=
      simulateApnea_only (simulateSleepStage s).2 (simulateSleepStage s).1
    omega
  · omega

theorem tick_n3_mono (s : Sim) (osc : Osc) (h : s.has_entered_n3 = true) :
    (generateEpochData s osc).2.has_entered_n3 = true := by
  obtain ⟨i, j, k, heq, -, -⟩ := generateEpochData_spec s osc
  rw [heq]
  show (apneaBookkeeping _ _).has_entered_n3 = true
  rw [(apneaBookkeeping_fields _ _).2.1]
  obtain ⟨-, -, -, -, -, -, hn3, -⟩ :=
    simulateApnea_only (simulateSleepStage s).2 (simulateSleepStage s).1
  rw [hn3]
  exact (simulateSleepStage_pres s).2.2.2.2 h

theorem tick_total_last (s : Sim) (osc : Osc)
    (h : (generateEpochData s osc).2.total_apneas = 0) :
    (generateEpochData s osc).2.last_apnea_epoch = s.last_apnea_epoch ∧
    (generateEpochData s osc).2.total_apneas = s.total_apneas := by
  obtain ⟨i, j, k, heq, -, -⟩ := generateEpochData_spec s osc
  set s1 := (simulateSleepStage s).2 with hs1
  set st := (simulateSleepStage s).1 with hst
  set q := simulateApnea s1 st with hq
  rw [heq] at h ⊢
  obtain ⟨-, -, -, -, -, -, -, -, -, hlast, -, htot⟩ := simulateApnea_only s1 st
  obtain ⟨-, -, -, -, hb5, hb6⟩ := apneaBookkeeping_fields q.2 q.1
  have h2 : (apneaBookkeeping q.2 q.1).total_apneas = 0 := h
  rw [hb5] at h2
  have hfalse : q.1 = false := by
    by_contra hb
    rw [Bool.not_eq_false] at hb
    rw [if_pos hb] at h2
    simp at h2
  constructor
  · have g1 : (apneaBookkeeping q.2 q.1).last_apnea_epoch = s.last_apnea_epoch := by
      rw [hb6, if_neg (by rw [hfalse]; exact Bool.false_ne_true),
        hlast, (simulateSleepStage_pres s).2.2.2.1]
    exact g1
  · have g2 : (apneaBookkeeping q.2 q.1).total_apneas = s.total_apneas := by
      rw [hb5, if_neg (by rw [hfalse]; exact Bool.false_ne_true),
        htot, (simulateSleepStage_pres s).2.2.1]
    exact g2

theorem init_fields (r : ℤ) (u : ℕ → ℚ) (z : ℕ → ℕ) (g : ℕ → ℚ) :
    (init r u z g).fs = r ∧
    (init r u z g).n_samples = r * 30 ∧
    (init r u z g).current_epoch = 0 ∧
    (init r u z g).current_stage = 0 ∧
    (init r u z g).stage_duration = 0 ∧
    (init r u z g).sleep_onset_epoch = none ∧
    (init r u z g).has_entered_n3 = false ∧
    (init r u z g).last_apnea_epoch = -20 ∧
    (init r u z g).consecutive_apneas = 0 ∧
    (init r u z g).total_apneas = 0 :=
  ⟨rfl, rfl, rfl, rfl, rfl, rfl, rfl, rfl, rfl, rfl⟩

theorem run_epoch (s : Sim) (osc : Osc) :
    ∀ n : ℕ, (run s osc n).current_epoch = s.current_epoch + n := by
  intro n
  induction n with
  | zero => simp [run]
  | succ n ih =>
    have := tick_epoch (run s osc n) osc
    show (generateEpochData (run s osc n) osc).2.current_epoch = _
    rw [this, ih]
    push_cast
    ring

theorem run_consec_le (s : Sim) (osc : Osc) (h : s.consecutive_apneas ≤ 2) :
    ∀ n : ℕ, (run s osc n).consecutive_apneas ≤ 2
  | 0 => h
  | n + 1 => tick_consec_le (run s osc n) osc

theorem run_n3_mono (s : Sim) (osc : Osc) (h : s.has_entered_n3 = true) :
    ∀ n : ℕ, (run s osc n).has_entered_n3 = true
  | 0 => h
  | n + 1 => tick_n3_mono (run s osc n) osc (run_n3_mono s osc h n)

theorem run_total_zero_last (r : ℤ) (u : ℕ → ℚ) (z : ℕ → ℕ) (g : ℕ → ℚ)
    (osc : Osc) :
    ∀ n : ℕ, (run (init r u z g) osc n).total_apneas = 0 →
      (run (init r u z g) osc n).last_apnea_epoch = -20 := by
  intro n
  induction n with
  | zero =>
    intro _
    exact (init_fields r u z g).2.2.2.2.2.2.2.1
  | succ n ih =>
    intro h
    obtain ⟨hlast, htot⟩ := tick_total_last (run (init r u z g) osc n) osc h
    rw [show (run (init r u z g) osc (n + 1)) =
        (generateEpochData (run (init r u z g) osc n) osc).2 from rfl] at h ⊢
    rw [hlast]
    exact ih (by rw [← htot]; exact h)


/-! ### Fixtures for witnesses and counterexamples -/

/-- Constant unit-draw stream `1/2`: large enough to miss every 5%/10%
side branch and small enough to pass the 70% N1-progression and the 60%
deep-sleep draws. -/
def wU : ℕ → ℚ := fun _ => 1/2

/-- All-zero unit-draw stream. -/
def wU0 : ℕ → ℚ := fun _ => 0

/-- All-zero integer-draw stream (`randint` draws take their minimum:
`wake_time = 10`, `min_gap = 4`; Poisson spindle counts are 0). -/
def wZ : ℕ → ℕ := fun _ => 0

/-- All-zero Gaussian stream. -/
def wG : ℕ → ℚ := fun _ => 0

/-- Gaussian stream at constant `-44`: with stage N1 and the all-zero
oracles this drives one HR sample to exactly `40` bpm before clipping. -/
def wGC8 : ℕ → ℚ := fun _ => -44

/-- All-zero oracle bundle with the identity band-pass. -/
def wOsc : Osc :=
  ⟨fun _ _ => 0, fun _ _ => 0, fun _ _ => 0, fun _ _ => 0, id, true, fun _ => 0⟩

/-- The `wU` stream with the two apnea base-probability draws of epochs
30 and 31 forced to 0 (cursor positions 201 and 210 of that session), so
the scheduler fires on both epochs. -/
def wUC1 : ℕ → ℚ := fun i => if i = 201 ∨ i = 210 then 0 else 1/2

/-! ### Claims -/

/-- C1 (counterexample): a session in which an apnea was decided at epoch
30 (`lastApneaEpoch = 30`) and the decision at epoch 31 nevertheless
returns `true`: the epoch-30 apnea leaves `consecutiveApneaCount = 1`, so
the minimum-gap rule of lines 247–251 is skipped and the cluster may
continue.  The claim's universally quantified `false` fails on this
session. -/
theorem c1_counterexample_second_cluster_apnea :
    (nthRecord (init 1 wUC1 wZ wG) wOsc 30).isApnea = true ∧
    (run (init 1 wUC1 wZ wG) wOsc 31).last_apnea_epoch = 30 ∧
    (run (init 1 wUC1 wZ wG) wOsc 31).consecutive_apneas = 1 ∧
    (nthRecord (init 1 wUC1 wZ wG) wOsc 31).isApnea = true := by
  with_unfolding_all decide

/-- C1 (amended): when the epoch-31 decision is made *outside a cluster*
(`consecutiveApneaCount = 0`) with `lastApneaEpoch = 30`, the gap of 1 is
below every drawable minimum gap from `[4, 8)` and the decision returns
`false` for every stage and every stream. -/
theorem c1_apnea_gap_rule_when_not_in_cluster (s : Sim) (st : ℕ)
    (h0 : s.consecutive_apneas = 0) (hl : s.last_apnea_epoch = 30)
    (he : s.current_epoch = 31) :
    (simulateApnea s st).1 = false :=
  simulateApnea_gap s st h0 (by rw [hl, he]; norm_num)

/-- C1 (witness): the amended rule applied at a concrete state. -/
theorem c1_apnea_gap_rule_witness :
    ({ init 1 wU wZ wG with last_apnea_epoch := 30, current_epoch := 31
       : Sim }.consecutive_apneas = 0) ∧
    (simulateApnea
      { init 1 wU wZ wG with last_apnea_epoch := 30, current_epoch := 31 } 2).1
      = false :=
  ⟨by with_unfolding_all decide,
   c1_apnea_gap_rule_when_not_in_cluster _ 2
     (by with_unfolding_all decide) rfl rfl⟩

/-- C2 (counterexample): construction with a non-positive sampling rate
does not fail: `__init__` contains no validation, so a fully-formed
simulator state is produced for rate `0` (and for a negative rate). -/
theorem c2_counterexample_nonpositive_rate_constructs :
    ((init 0 wU wZ wG).fs = 0 ∧ (init 0 wU wZ wG).n_samples = 0 ∧
      (init 0 wU wZ wG).current_stage = 0 ∧
      (init 0 wU wZ wG).last_apnea_epoch = -20) ∧
    (init (-5) wU wZ wG).fs = -5 := by
  with_unfolding_all decide

/-- C2 (amended): construction is a total function — for *every* sampling
rate, including non-positive ones, it succeeds and yields the documented
reset state (`epoch 0`, stage Wake, no onset, `lastApneaEpoch = -20`,
zero apnea counters, `n_samples = rate · 30`). -/
theorem c2_construction_never_fails (r : ℤ) (u : ℕ → ℚ) (z : ℕ → ℕ)
    (g : ℕ → ℚ) :
    (init r u z g).fs = r ∧
    (init r u z g).n_samples = r * 30 ∧
    (init r u z g).current_epoch = 0 ∧
    (init r u z g).current_stage = 0 ∧
    (init r u z g).stage_duration = 0 ∧
    (init r u z g).sleep_onset_epoch = none ∧
    (init r u z g).has_entered_n3 = false ∧
    (init r u z g).last_apnea_epoch = -20 ∧
    (init r u z g).consecutive_apneas = 0 ∧
    (init r u z g).total_apneas = 0 :=
  init_fields r u z g

/-- C3: while `stageDuration < minDuration(stage)` (Wake 0, N1 2, N2 3,
N3 10, REM 5), a tick never leaves the stage: both the updated state and
the returned stage equal the current stage, for every state and every
stream. -/
theorem c3_no_transition_below_min_duration (s : Sim)
    (h : s.stage_duration < specMinDuration s.current_stage) :
    (simulateSleepStage s).2.current_stage = s.current_stage ∧
    (simulateSleepStage s).1 = s.current_stage :=
  ⟨(simulateSleepStage_floor s h).1, (simulateSleepStage_floor s h).2.1⟩

/-- C3 (witness): a fresh N1 state (duration 0 < 2) stays in N1. -/
theorem c3_witness :
    ({ init 1 wU wZ wG with current_stage := 1 : Sim }.stage_duration <
      specMinDuration { init 1 wU wZ wG with current_stage := 1 : Sim }.current_stage) ∧
    (simulateSleepStage { init 1 wU wZ wG with current_stage := 1 }).2.current_stage = 1 :=
  ⟨by with_unfolding_all decide,
   (c3_no_transition_below_min_duration
     { init 1 wU wZ wG with current_stage := 1 }
     (by with_unfolding_all decide)).1⟩

/-- C4: in every session, `consecutiveApneaCount ≤ 2` after any number of
ticks, and the apnea decision is never `true` once the count has reached
2. -/
theorem c4_consecutive_apneas_capped :
    (∀ (r : ℤ) (u : ℕ → ℚ) (z : ℕ → ℕ) (g : ℕ → ℚ) (osc : Osc) (n : ℕ),
      (run (init r u z g) osc n).consecutive_apneas ≤ 2) ∧
    (∀ (s : Sim) (st : ℕ), 2 ≤ s.consecutive_apneas →
      (simulateApnea s st).1 = false) :=
  ⟨fun r u z g osc n =>
    run_consec_le (init r u z g) osc
      (by rw [(init_fields r u z g).2.2.2.2.2.2.2.2.1]; omega) n,
   fun s st h => simulateApnea_cap s st h⟩

/-- C4 (witness): the cap applied on a session run and on a saturated
state. -/
theorem c4_witness :
    (run (init 1 wU wZ wG) wOsc 3).consecutive_apneas ≤ 2 ∧
    (2 ≤ ({ init 1 wU wZ wG with consecutive_apneas := 2 : Sim }).consecutive_apneas ∧
      (simulateApnea { init 1 wU wZ wG with consecutive_apneas := 2 } 2).1 = false) :=
  ⟨c4_consecutive_apneas_capped.1 1 wU wZ wG wOsc 3,
   by with_unfolding_all decide,
   c4_consecutive_apneas_capped.2
     { init 1 wU wZ wG with consecutive_apneas := 2 } 2
     (by with_unfolding_all decide)⟩

/-- C5: on every tick, `stageDuration` is 0 afterwards iff the stage
changed on that tick, and an unchanged stage increments it by exactly
1. -/
theorem c5_stage_duration_reset_iff_change (s : Sim) :
    ((simulateSleepStage s).2.stage_duration = 0 ↔
      (simulateSleepStage s).2.current_stage ≠ s.current_stage) ∧
    ((simulateSleepStage s).2.current_stage = s.current_stage →
      (simulateSleepStage s).2.stage_duration = s.stage_duration + 1) := by
  obtain ⟨t, a, b, c, d, -, heq, hab, -, -⟩ := simulateSleepStage_shape s
  rw [heq]
  show (b = 0 ↔ a ≠ s.current_stage) ∧
    (a = s.current_stage → b = s.stage_duration + 1)
  rcases hab with ⟨hne, hb0⟩ | ⟨haeq, hbs⟩
  · exact ⟨⟨fun _ => hne, fun _ => hb0⟩, fun hc => absurd hc hne⟩
  · constructor
    · rw [hbs]
      constructor
      · intro h0; exact absurd h0 (Nat.succ_ne_zero _)
      · intro hne; exact absurd haeq hne
    · intro _; exact hbs

/-- C5 (witness): the duration/stage relation applied at a concrete
state (a Wake tick at epoch 0 stays Wake, so the duration increments). -/
theorem c5_witness :
    (simulateSleepStage (init 1 wU wZ wG)).2.current_stage =
      (init 1 wU wZ wG).current_stage ∧
    (simulateSleepStage (init 1 wU wZ wG)).2.stage_duration =
      (init 1 wU wZ wG).stage_duration + 1 :=
  ⟨by with_unfolding_all decide,
   (c5_stage_duration_reset_iff_change (init 1 wU wZ wG)).2
     (by with_unfolding_all decide)⟩

/-- C6 (counterexample): a reachable state whose stage is N3 while
`hasEnteredN3` is still `false`: with the `wU` streams the engine enters
N3 on tick 22 (epoch 21 decision), and the flag is not set on that tick —
it is only set once the N3 branch of `get_next_stage` runs after the
10-epoch floor. -/
theorem c6_counterexample_n3_entry_tick :
    (run (init 1 wU wZ wG) wOsc 22).current_stage = 3 ∧
    (run (init 1 wU wZ wG) wOsc 22).has_entered_n3 = false := by
  with_unfolding_all decide

/-- C6 (amended): `hasEnteredN3` is set on the first decision computed
*in* stage N3 once the 10-epoch floor is met (not on the entry tick),
and once `true` it is never reset for the session's lifetime. -/
theorem c6_has_entered_n3_set_late_and_sticky :
    (∀ s : Sim, s.current_stage = 3 → 10 ≤ s.stage_duration →
      (simulateSleepStage s).2.has_entered_n3 = true) ∧
    (∀ (s : Sim) (osc : Osc) (n : ℕ), s.has_entered_n3 = true →
      (run s osc n).has_entered_n3 = true) :=
  ⟨fun s h3 hd => simulateSleepStage_n3set s h3 hd,
   fun s osc n h => run_n3_mono s osc h n⟩

/-- C6 (witness): the flag is set on an N3 state at its floor, and the
sticky part holds along a short run. -/
theorem c6_witness :
    (simulateSleepStage
      { init 1 wU wZ wG with current_stage := 3, stage_duration := 10 }).2.has_entered_n3
      = true ∧
    (run { init 1 wU wZ wG with has_entered_n3 := true } wOsc 2).has_entered_n3 = true :=
  ⟨c6_has_entered_n3_set_late_and_sticky.1
    { init 1 wU wZ wG with current_stage := 3, stage_duration := 10 } rfl
    (by with_unfolding_all decide),
   c6_has_entered_n3_set_late_and_sticky.2
    { init 1 wU wZ wG with has_entered_n3 := true } wOsc 2 rfl⟩

/-- C7: determinism — two generator instances built from the same seed
(the same modelled draw streams) and stepped through the same sequence of
ticks produce identical sequences of EpochRecords.  In the embedding,
every source of randomness and every library evaluation is part of the
seed-derived input, so equal seeds give definitionally equal runs. -/
theorem c7_determinism_same_seed (r : ℤ) (u : ℕ → ℚ) (z : ℕ → ℕ)
    (g : ℕ → ℚ) (osc : Osc) (n : ℕ) (a b : Sim)
    (ha : a = init r u z g) (hb : b = init r u z g) :
    recordSeq a osc n = recordSeq b osc n := by
  subst ha hb
  rfl

/-- C7 (witness): two concrete same-seed instances agree on 2 ticks. -/
theorem c7_witness :
    recordSeq (init 1 wU wZ wG) wOsc 2 = recordSeq (init 1 wU wZ wG) wOsc 2 :=
  c7_determinism_same_seed 1 wU wZ wG wOsc 2 _ _ rfl rfl

/-- C8: every sample of every produced HR waveform lies in `[45, 110]`
(the final `np.clip` of line 413), and a sample that would be exactly
40 bpm before clipping is emitted as exactly 45. -/
theorem c8_hr_clipped_to_physiological_range (fs n_samples : ℤ)
    (u g : ℕ → ℚ) (ui gi : ℕ) (stage : ℕ) (ap : Bool) (osc : Osc) :
    (∀ x ∈ (generateHrSignal fs n_samples u g ui gi stage ap osc).1,
      45 ≤ x ∧ x ≤ 110) ∧
    (∀ i : ℕ, i < n_samples.toNat →
      hrPreClip fs n_samples u g ui gi stage ap osc i = 40 →
      (generateHrSignal fs n_samples u g ui gi stage ap osc).1.get? i =
        some 45) := by
  constructor
  · intro x hx
    simp only [generateHrSignal, List.mem_map, List.mem_range] at hx
    obtain ⟨i, -, rfl⟩ := hx
    unfold npClip
    exact ⟨le_max_left _ _, max_le (by norm_num) (min_le_left _ _)⟩
  · intro i hi h40
    show ((List.range n_samples.toNat).map _).get? i = some 45
    rw [List.get?_map, List.get?_range hi]
    show some (npClip 45 110 (hrPreClip fs n_samples u g ui gi stage ap osc i))
      = some 45
    rw [h40]
    norm_num [npClip]

/-- C8 (witness): a stage-N3 waveform sample (constant 55 with the zero
oracles) is within limits, and a forced pre-clip value of 40 at sample 0
of a stage-N1 epoch is clipped to exactly 45. -/
theorem c8_witness :
    (45 ≤ (55 : ℚ) ∧ (55 : ℚ) ≤ 110) ∧
    hrPreClip 1 30 wU0 wGC8 0 0 1 false wOsc 0 = 40 ∧
    (generateHrSignal 1 30 wU0 wGC8 0 0 1 false wOsc).1.get? 0 = some 45 :=
  ⟨(c8_hr_clipped_to_physiological_range 1 30 wU0 wG 0 0 3 false wOsc).1 55
      (by with_unfolding_all decide),
   by with_unfolding_all decide,
   (c8_hr_clipped_to_physiological_range 1 30 wU0 wGC8 0 0 1 false wOsc).2 0
      (by with_unfolding_all decide) (by with_unfolding_all decide)⟩

/-- C9: when the pre-normalization EEG signal has zero variance, the
normalization of lines 358–361 is skipped and `generate_eeg_signal`
returns the signal unchanged (no division happens, so no NaN). -/
theorem c9_zero_variance_skips_normalization (fs n_samples : ℤ) (da : ℚ)
    (u : ℕ → ℚ) (z : ℕ → ℕ) (g : ℕ → ℚ) (ui zi gi : ℕ) (stage : ℕ)
    (osc : Osc)
    (h : varQ (eegPreNormalize fs n_samples da u z g ui zi gi stage osc).1 = 0) :
    (generateEegSignal fs n_samples da u z g ui zi gi stage osc).1 =
      (eegPreNormalize fs n_samples da u z g ui zi gi stage osc).1 := by
  show normalizeSignal osc.sqrtq
    (eegPreNormalize fs n_samples da u z g ui zi gi stage osc).1 = _
  unfold normalizeSignal
  rw [if_neg (by rw [h]; exact lt_irrefl 0)]

/-- C9 (witness): an all-zero EEG buffer (zero noise, zero oracles) has
zero variance and passes through normalization unchanged. -/
theorem c9_witness :
    varQ (eegPreNormalize 1 30 1 wU0 wZ wG 0 0 0 0 wOsc).1 = 0 ∧
    (generateEegSignal 1 30 1 wU0 wZ wG 0 0 0 0 wOsc).1 =
      (eegPreNormalize 1 30 1 wU0 wZ wG 0 0 0 0 wOsc).1 :=
  ⟨by with_unfolding_all decide,
   c9_zero_variance_skips_normalization 1 30 1 wU0 wZ wG 0 0 0 0 wOsc
     (by with_unfolding_all decide)⟩

/-- C10: before a session's first apnea (`totalApneaCount = 0`),
`lastApneaEpoch` still holds its initialization value `-20`, the gap
since it is at least 20 epochs, and therefore the randomized minimum-gap
draw (4–7 epochs, `randintD 4 8`) can never block the decision, whatever
the stream state at the draw. -/
theorem c10_no_min_gap_block_before_first_apnea (r : ℤ) (u : ℕ → ℚ)
    (z : ℕ → ℕ) (g : ℕ → ℚ) (osc : Osc) (n : ℕ)
    (h : (run (init r u z g) osc n).total_apneas = 0) :
    (run (init r u z g) osc n).last_apnea_epoch = -20 ∧
    20 ≤ (run (init r u z g) osc n).current_epoch -
      (run (init r u z g) osc n).last_apnea_epoch ∧
    ∀ t : Sim, ¬((run (init r u z g) osc n).current_epoch -
        (run (init r u z g) osc n).last_apnea_epoch < (randintD 4 8 t).1) := by
  have hl := run_total_zero_last r u z g osc n h
  have he : (run (init r u z g) osc n).current_epoch = (n : ℤ) := by
    have h0 := run_epoch (init r u z g) osc n
    rw [(init_fields r u z g).2.2.1] at h0
    omega
  refine ⟨hl, by rw [hl, he]; omega, ?_⟩
  intro t
  rw [hl, he]
  unfold randintD
  have h4 : ((8 : ℤ) - 4).toNat = 4 := rfl
  rw [h4]
  omega

/-- C10 (witness): five ticks into a `wU` session no apnea has occurred,
and the invariant instantiates. -/
theorem c10_witness :
    (run (init 1 wU wZ wG) wOsc 5).total_apneas = 0 ∧
    (run (init 1 wU wZ wG) wOsc 5).last_apnea_epoch = -20 :=
  ⟨by with_unfolding_all decide,
   (c10_no_min_gap_block_before_first_apnea 1 wU wZ wG wOsc 5
     (by with_unfolding_all decide)).1⟩

end SleepSim
